import Mathlib

/-!
Verification of the ChessScape_manager repository (LEEP-Modelling-Team).

Shallow embedding of the Python sources:
  - src/chess/chess_manager.py : osgrid2bbox (British National Grid codec),
    filter_files (archive file filter), _init_regions_and_offsets (region table);
  - src/rechunk_chess.py : rechunk_chess (tile rechunker) and the __main__
    orchestrator (tile enumeration, worker pool).

Modelling conventions:
  - Python strings are Lean String (lists of characters); the regex character
    class [A-Z] is the ASCII range and the class of digits is ASCII 0-9, and
    the end anchor of a regex is end-of-string (the inputs relevant to the
    claims are plain ASCII without trailing newline).
  - Python exceptions are the constructors of PyExn; a function that can raise
    returns Except PyExn.
  - A dynamically typed argument that may be a non-string is PyStr: either a
    string, or a value with no upper() method (an int, list, ...).
  - The float offsets 1e5 * i are exact small integers, modelled as Nat.
  - netCDF data (xarray) is modelled structurally: a DataArray is a list of
    time slices, each carrying its time coordinate and a list of
    (x, y, value) cells; values are integers, since the claims are about the
    dataflow (cropping, concatenation, elementwise sum), not float rounding.
  - The filesystem is an explicit parameter: the directory listing is a list
    of filenames, and opening a netCDF file is a function from the path to
    Option of its per-variable contents (none = FileNotFoundError).
-/

/-- Python exceptions raised (or leaked) by the embedded code. -/
inductive PyExn where
  /-- BNGError from chess_manager.py (the InvalidReference error of the spec). -/
  | bngError
  /-- AttributeError, e.g. from calling .upper() on a value that lacks it. -/
  | attributeError
  /-- IndexError from an out-of-range list index. -/
  | indexError
  /-- ValueError from int() on a non-numeric string. -/
  | valueError
  /-- UnboundLocalError: a local variable referenced before assignment. -/
  | unboundLocalError
  /-- KeyError from a missing dict key. -/
  | keyError
deriving DecidableEq, Repr

/-- The dict returned by osgrid2bbox: {'xmin', 'xmax', 'ymin', 'ymax'}. -/
structure Bbox where
  xmin : Nat
  xmax : Nat
  ymin : Nat
  ymax : Nat
deriving DecidableEq, Repr

/-- A dynamically typed gridref argument: a Python str, or any non-string
value (int, float, list, ...) that has no upper() method. -/
inductive PyStr where
  | str (s : String)
  | nonString
deriving DecidableEq, Repr

/-- ASCII uppercase letter, the regex class [A-Z]. -/
def isUpperAlpha (c : Char) : Bool := decide ('A' ≤ c ∧ c ≤ 'Z')

/-- ASCII digit, the regex class of digits. -/
def isDigitChar (c : Char) : Bool := decide ('0' ≤ c ∧ c ≤ '9')

/-- str.upper() on one character (ASCII case mapping). -/
def pyUpperChar (c : Char) : Char :=
  if 'a' ≤ c ∧ c ≤ 'z' then Char.ofNat (c.toNat - 32) else c

/-- str.upper(). -/
def pyUpper (cs : List Char) : List Char := cs.map pyUpperChar

/-- int() on a string of decimal digits. -/
def digitsToNat (cs : List Char) : Nat :=
  cs.foldl (fun n c => 10 * n + (c.toNat - 48)) 0

/-- re.match of the 10km pattern of osgrid2bbox against a whole string:
two uppercase letters followed by exactly 2, 4, 6, 8 or 10 digits, then the
end of the string.  Returns the two captured groups (region, coords). -/
def match10km (cs : List Char) : Option (List Char × List Char) :=
  match cs with
  | a :: b :: rest =>
    if isUpperAlpha a && isUpperAlpha b && rest.all isDigitChar &&
        (rest.length == 2 || rest.length == 4 || rest.length == 6 ||
         rest.length == 8 || rest.length == 10) then
      some ([a, b], rest)
    else
      none
  | _ => none

/-- re.match of the 100km pattern of osgrid2bbox: two uppercase letters as a
prefix of the string (no end anchor: anything may follow).  Returns the
captured region group. -/
def match100km (cs : List Char) : Option (List Char) :=
  match cs with
  | a :: b :: _ => if isUpperAlpha a && isUpperAlpha b then some [a, b] else none
  | _ => none

/-- The 13-row by 7-column table of 100 km region codes of
_init_regions_and_offsets, rows listed north to south as in the source. -/
def regionRows : List (List String) :=
  [["HL", "HM", "HN", "HO", "HP", "JL", "JM"],
   ["HQ", "HR", "HS", "HT", "HU", "JQ", "JR"],
   ["HV", "HW", "HX", "HY", "HZ", "JV", "JW"],
   ["NA", "NB", "NC", "ND", "NE", "OA", "OB"],
   ["NF", "NG", "NH", "NJ", "NK", "OF", "OG"],
   ["NL", "NM", "NN", "NO", "NP", "OL", "OM"],
   ["NQ", "NR", "NS", "NT", "NU", "OQ", "OR"],
   ["NV", "NW", "NX", "NY", "NZ", "OV", "OW"],
   ["SA", "SB", "SC", "SD", "SE", "TA", "TB"],
   ["SF", "SG", "SH", "SJ", "SK", "TF", "TG"],
   ["SL", "SM", "SN", "SO", "SP", "TL", "TM"],
   ["SQ", "SR", "SS", "ST", "SU", "TQ", "TR"],
   ["SV", "SW", "SX", "SY", "SZ", "TV", "TW"]]

/-- regions = list(zip(*regions[::-1])): reverse the rows (bottom to top) and
transpose, so that the index pair of a code gives its offset. -/
def transposedRegions : List (List String) := regionRows.reverse.transpose

/-- The (region, (1e5 * i, 1e5 * j)) entries inserted into offset_map, in
insertion order. -/
def offsetEntries : List (String × Nat × Nat) :=
  (transposedRegions.enum.map fun p =>
    p.2.enum.map fun q => (q.2, (100000 * p.1, 100000 * q.1))).flatten

/-- Lookup in the offset_map dict.  A Python dict keeps the last insertion
for a repeated key, so lookup scans the entries in reverse insertion order
(the 91 region codes are in fact pairwise distinct). -/
def offsetMap (region : String) : Option (Nat × Nat) :=
  offsetEntries.reverse.lookup region

/-- The 10km arithmetic of osgrid2bbox: keep only the first 2 digits of the
numeric suffix, split into easting/northing halves, scale by
10^(5 - half_figs), and return the 10000 m square at offset + scaled values. -/
def bbox10 (xoff yoff : Nat) (coords : List Char) : Bbox :=
  let coords2 := coords.take 2
  let half_figs := coords2.length / 2
  let easting := digitsToNat (coords2.take half_figs)
  let northing := digitsToNat (coords2.drop half_figs)
  let scale := 10 ^ (5 - half_figs)
  ⟨easting * scale + xoff, easting * scale + xoff + 10000,
   northing * scale + yoff, northing * scale + yoff + 10000⟩

/-- osgrid2bbox (chess_manager.py lines 174-260).  Note the source calls
gridref.upper() before the try/except blocks, so a non-string argument
raises an uncaught AttributeError there; only failures of re.match and
match.groups() inside the try blocks are converted to BNGError. -/
def osgrid2bbox (gridref : PyStr) (os_cellsize : String) : Except PyExn Bbox :=
  match gridref with
  | .nonString => .error .attributeError
  | .str s =>
    let g := pyUpper s.data
    if os_cellsize = "10km" then
      match match10km g with
      | none => .error .bngError
      | some (region, coords) =>
        match offsetMap (String.mk region) with
        | none => .error .bngError
        | some xy => .ok (bbox10 xy.1 xy.2 coords)
    else if os_cellsize = "100km" then
      match match100km g with
      | none => .error .bngError
      | some region =>
        match offsetMap (String.mk region) with
        | none => .error .bngError
        | some xy => .ok ⟨xy.1, xy.1 + 100000, xy.2, xy.2 + 100000⟩
    else
      .error .bngError

/-- A Python parameter that may be a single value or a list of values. -/
inductive OneOrList (α : Type) where
  | single (a : α)
  | list (l : List α)

/-- The `if not isinstance(x, list): x = [x]` normalization of filter_files. -/
def OneOrList.normalize {α : Type} : OneOrList α → List α
  | .single a => [a]
  | .list l => l

/-- A delimiter of the tokenization re.split of filter_files. -/
def isDelim (c : Char) : Bool := c == '_' || c == '.' || c == '-'

/-- re.split on the single-character alternation of '_', '.', '-': consecutive
delimiters yield empty tokens, and the empty string yields one empty token. -/
def splitOnDelims : List Char → List (List Char)
  | [] => [[]]
  | c :: rest =>
    if isDelim c then
      [] :: splitOnDelims rest
    else
      match splitOnDelims rest with
      | [] => [[c]]
      | t :: ts => (c :: t) :: ts

/-- int() applied to a (possibly sliced) token: succeeds on a nonempty string
of decimal digits, otherwise raises ValueError.  (Python's int() also accepts
a sign and surrounding whitespace, which never occur in these filename
tokens.) -/
def pyInt? (cs : List Char) : Option Nat :=
  if cs ≠ [] ∧ cs.all isDigitChar then some (digitsToNat cs) else none

/-- The Python substring test: needle in hay. -/
def pyIn (needle : List Char) : List Char → Bool
  | [] => needle.isEmpty
  | c :: rest => needle.isPrefixOf (c :: rest) || pyIn needle rest

/-- The loop body of filter_files for one file (lines 129-136): first
yr = int(df[i][10][0:4]) (IndexError on fewer than 11 tokens, ValueError on a
non-numeric slice), then the short-circuit condition
str(ensemble) in df[i][5] and rcp in df[i][2] and var == df[i][6] and
yr == year.  When index 10 exists, indices 5, 2, 6 exist as well, so the
final fallthrough branch is unreachable. -/
def fileCond (rcp : String) (year : Nat) (var : String) (ensemble : String)
    (tokens : List (List Char)) : Except PyExn Bool :=
  match tokens.get? 10 with
  | none => .error .indexError
  | some t10 =>
    match pyInt? (t10.take 4) with
    | none => .error .valueError
    | some yr =>
      match tokens.get? 5, tokens.get? 2, tokens.get? 6 with
      | some t5, some t2, some t6 =>
        .ok (pyIn ensemble.data t5 &&
             (pyIn rcp.data t2 && ((var.data == t6) && (yr == year))))
      | _, _, _ => .error .indexError

/-- The pure value of fileCond on a well-formed token list (same condition,
total). -/
def condBool (rcp : String) (year : Nat) (var : String) (ensemble : String)
    (tokens : List (List Char)) : Bool :=
  pyIn ensemble.data (tokens.getD 5 []) &&
    (pyIn rcp.data (tokens.getD 2 []) &&
      ((var.data == tokens.getD 6 []) &&
        (((pyInt? ((tokens.getD 10 []).take 4)).getD 0) == year)))

/-- A token list on which the loop body of filter_files does not raise:
at least 11 tokens, and the first 4 characters of token 10 parse as int. -/
def wfTokens (tokens : List (List Char)) : Bool :=
  match tokens.get? 10 with
  | none => false
  | some t10 => (pyInt? (t10.take 4)).isSome

/-- The innermost loop of filter_files: for i, _ in enumerate(df), update
filter_list[i] to True when the condition holds.  The flags list always has
the same length as df (the mismatch branch is unreachable). -/
def scanFiles (rcp : String) (year : Nat) (var : String) (ens : String) :
    List (List (List Char)) → List Bool → Except PyExn (List Bool)
  | [], flags => .ok flags
  | _ :: _, [] => .ok []
  | tokens :: rest, flag :: flags =>
    match fileCond rcp year var ens tokens with
    | .error e => .error e
    | .ok b =>
      match scanFiles rcp year var ens rest flags with
      | .error e => .error e
      | .ok updated => .ok ((flag || b) :: updated)

/-- for ensemble in ensembles (third loop of filter_files). -/
def ensLoop (rcp : String) (year : Nat) (var : String) :
    List String → List (List (List Char)) → List Bool → Except PyExn (List Bool)
  | [], _, flags => .ok flags
  | e :: es, df, flags =>
    match scanFiles rcp year var e df flags with
    | .error err => .error err
    | .ok flags2 => ensLoop rcp year var es df flags2

/-- for var in climate_vars (second loop of filter_files). -/
def varLoop (rcp : String) (year : Nat) :
    List String → List String → List (List (List Char)) → List Bool →
    Except PyExn (List Bool)
  | [], _, _, flags => .ok flags
  | v :: vs, es, df, flags =>
    match ensLoop rcp year v es df flags with
    | .error err => .error err
    | .ok flags2 => varLoop rcp year vs es df flags2

/-- for year in years (outer loop of filter_files). -/
def yearLoop (rcp : String) :
    List Nat → List String → List String → List (List (List Char)) →
    List Bool → Except PyExn (List Bool)
  | [], _, _, _, flags => .ok flags
  | y :: ys, vs, es, df, flags =>
    match varLoop rcp y vs es df flags with
    | .error err => .error err
    | .ok flags2 => yearLoop rcp ys vs es df flags2

/-- filter_files (chess_manager.py lines 109-139).  `listing` stands for the
I/O result [f for f in listdir(path) if isfile(join(path, f))]; everything
after that line is modelled exactly: tokenization of each name, the
quadruple loop marking a per-file boolean, the zip-filter selection, and the
final path + backslash prefixing. -/
def filter_files (rcp : String) (years : OneOrList Nat)
    (climate_vars : OneOrList String) (ensembles : OneOrList String)
    (path : String) (listing : List String) : Except PyExn (List String) :=
  let years := years.normalize
  let cvars := climate_vars.normalize
  let ens := ensembles.normalize
  let df := listing.map fun f => splitOnDelims f.data
  let flags0 := df.map fun _ => false
  match yearLoop rcp years cvars ens df flags0 with
  | .error e => .error e
  | .ok flags =>
    .ok (((listing.zip flags).filter fun p => p.2).map fun p => path ++ "\\" ++ p.1)

/-- The match predicate of the spec: some requested (year, variable, ensemble)
combination satisfies the per-file condition. -/
def anyMatch (rcp : String) (years : List Nat) (cvars : List String)
    (ens : List String) (tokens : List (List Char)) : Bool :=
  years.any fun y => cvars.any fun v => ens.any fun e => condBool rcp y v e tokens

/-- One time step of a netCDF DataArray: its time coordinate and the
(x, y, value) cells of the spatial grid at that step. -/
structure Slice where
  time : Nat
  cells : List (Nat × Nat × Int)
deriving DecidableEq, Repr

/-- A DataArray with a time dimension: the list of its time slices in axis
order. -/
abbrev DA := List Slice

/-- nc_file.where((x >= xmin) & (x < xmax) & (y >= ymin) & (y < ymax),
drop=True): keep the cells inside the half-open box; the time axis is
untouched. -/
def cropDA (bbox : Bbox) (da : DA) : DA :=
  da.map fun s =>
    { s with
      cells := s.cells.filter fun c =>
        decide (bbox.xmin ≤ c.1) && decide (c.1 < bbox.xmax) &&
        decide (bbox.ymin ≤ c.2.1) && decide (c.2.1 < bbox.ymax) }

/-- Elementwise addition of two spatial grids, xarray-style: the result has
the cells whose (x, y) coordinates occur in both operands, with the values
added. -/
def alignAdd (ca cb : List (Nat × Nat × Int)) : List (Nat × Nat × Int) :=
  ca.filterMap fun c =>
    match cb.find? fun c2 => c2.1 == c.1 && c2.2.1 == c.2.1 with
    | none => none
    | some c2 => some (c.1, c.2.1, c.2.2 + c2.2.2)

/-- os_chunk['rlds'] + os_chunk['rsds']: xarray arithmetic aligns the two
arrays on their shared coordinates (time steps present in both, cells
present in both) and adds elementwise. -/
def addDA (a b : DA) : DA :=
  a.filterMap fun s =>
    match b.find? fun s2 => s2.time == s.time with
    | none => none
    | some s2 => some { time := s.time, cells := alignAdd s.cells s2.cells }

/-- Python dict assignment d[k] = v: replace the value when the key is
present, append the new binding otherwise. -/
def dictSet {β : Type} (d : List (String × β)) (k : String) (v : β) :
    List (String × β) :=
  if d.any fun p => p.1 == k then
    d.map fun p => bif p.1 == k then (k, v) else p
  else
    d ++ [(k, v)]

/-- The inner file loop of rechunk_chess (lines 59-81) for one variable.
`fs` is the filesystem: path to Option of the per-variable file contents,
none meaning xr.open_dataset raises FileNotFoundError (caught: the file is
skipped).  `idx` is the position of the current file, and `file is
file_list[0]` holds exactly on the first iteration.  `cell_data` is the
enclosing function's local variable, possibly not yet assigned (none);
reading it unassigned in the concat branch raises UnboundLocalError, which
the except FileNotFoundError clause does not catch. -/
def fileLoop (fs : String → Option (String → DA)) (var : String) (bbox : Bbox) :
    List String → Nat → Option DA → Except PyExn (Option DA)
  | [], _, cell_data => .ok cell_data
  | file :: rest, idx, cell_data =>
    match fs file with
    | none => fileLoop fs var bbox rest (idx + 1) cell_data
    | some content =>
      let nc_file := content var
      if idx = 0 then
        fileLoop fs var bbox rest (idx + 1) (some (cropDA bbox nc_file))
      else
        match cell_data with
        | none => .error .unboundLocalError
        | some cd => fileLoop fs var bbox rest (idx + 1) (some (cd ++ cropDA bbox nc_file))

/-- The variable loop of rechunk_chess (lines 54-84).  `cell_data` survives
from one variable to the next (it is a function-level local), which is what
line 84 (os_chunk[var] = cell_data) reads: if the current variable assembled
nothing, the previous variable's data (or an UnboundLocalError on the first
variable) is used. -/
def varsLoop (fs : String → Option (String → DA))
    (getFiles : String → Except PyExn (List String)) (bbox : Bbox) :
    List String → Option DA → List (String × DA) →
    Except PyExn (Option DA × List (String × DA))
  | [], cell_data, os_chunk => .ok (cell_data, os_chunk)
  | var :: rest, cell_data, os_chunk =>
    match getFiles var with
    | .error e => .error e
    | .ok file_list =>
      match fileLoop fs var bbox file_list 0 cell_data with
      | .error e => .error e
      | .ok cd =>
        match cd with
        | none => .error .unboundLocalError
        | some d => varsLoop fs getFiles bbox rest (some d) (dictSet os_chunk var d)

/-- The fixed variable list of rechunk_chess (line 45). -/
def climateVars : List String :=
  ["tas", "tasmax", "tasmin", "pr", "rlds", "rsds", "hurs", "sfcWind"]

/-- years = list(range(2020, 2081)) (line 44). -/
def rcYears : List Nat := List.range' 2020 61

/-- rechunk_chess (rechunk_chess.py lines 33-92) up to the point where the
assembled dataset is written to disk: compute the tile's 10 km bounding box,
assemble each climate variable from the files selected by filter_files,
then derive os_chunk['rds'] = os_chunk['rlds'] + os_chunk['rsds'].
`listing` is the contents of the source archive directory `nc_path`, and
`fs` resolves the path-prefixed filenames that filter_files returns.  The
xr.Dataset is modelled as an association list from variable name to its
DataArray.  The final to_netcdf write (pure I/O) is not modelled. -/
def rechunk_chess (fs : String → Option (String → DA)) (listing : List String)
    (os_cell rcp ensemble nc_path : String) :
    Except PyExn (List (String × DA)) :=
  match osgrid2bbox (.str os_cell) "10km" with
  | .error e => .error e
  | .ok bbox =>
    match varsLoop fs
        (fun var => filter_files rcp (.list rcYears) (.single var)
          (.single ensemble) nc_path listing)
        bbox climateVars none [] with
    | .error e => .error e
    | .ok (_, os_chunk) =>
      match os_chunk.lookup "rlds", os_chunk.lookup "rsds" with
      | some la, some lb => .ok (dictSet os_chunk "rds" (addDA la lb))
      | _, _ => .error .keyError

/-- The cropped slices of the files of `files` that are present in `fs`,
concatenated in list order (the months the claims call "present"). -/
def presentCrops (fs : String → Option (String → DA)) (var : String)
    (bbox : Bbox) : List String → DA
  | [] => []
  | f :: rest =>
    match fs f with
    | none => presentCrops fs var bbox rest
    | some content => cropDA bbox (content var) ++ presentCrops fs var bbox rest

/-- The time axis of a DataArray is monotonically ordered. -/
def timesSorted : DA → Bool
  | [] => true
  | [_] => true
  | a :: b :: rest => decide (a.time ≤ b.time) && timesSorted (b :: rest)

/-- The os_regions list of the __main__ orchestrator (rechunk_chess.py
lines 97-108): 59 region codes. -/
def os_regions : List String :=
  ["SV", "SW", "SX", "SY", "SZ", "TV",
   "SR", "SS", "ST", "SU", "TQ", "TR",
   "SM", "SN", "SO", "SP", "TL", "TM",
   "SH", "SJ", "SK", "TF", "TG", "SC",
   "SD", "SE", "TA", "NW", "NX", "NY",
   "NZ", "OV", "NR", "NS", "NT", "NU",
   "NL", "NM", "NN", "NO", "NP", "NF",
   "NG", "NH", "NJ", "NK", "NA", "NB",
   "NC", "ND", "NE", "HW", "HX", "HY",
   "HZ", "HT", "HU", "HO", "HP"]

/-- The f-string f'{num:02}': two-digit zero-padded decimal (every call site
passes num in range(100)). -/
def pad2 (n : Nat) : String :=
  String.mk [Char.ofNat (48 + n / 10 % 10), Char.ofNat (48 + n % 10)]

/-- os_grid = [code + f'{num:02}' for code in os_regions for num in
range(100)] (line 110). -/
def os_grid : List String :=
  os_regions.flatMap fun code => (List.range 100).map fun num => code ++ pad2 num

/-- multiprocessing.Pool(processes=16) (line 112). -/
def poolProcesses : Nat := 16

/-- The scenario fixed by the orchestrator (line 116). -/
def fixedRCP : String := "rcp45"

/-- The ensemble member fixed by the orchestrator (line 117). -/
def fixedEnsemble : String := "01"

/-- One unit of parallel work dispatched by pool.map: the tile code together
with the fixed scenario and ensemble bound by functools.partial. -/
structure TileRequest where
  tile : String
  rcp : String
  ensemble : String
deriving DecidableEq, Repr

/-- The work items the orchestrator dispatches, one per enumerated tile. -/
def tileRequests : List TileRequest :=
  os_grid.map fun cell => ⟨cell, fixedRCP, fixedEnsemble⟩

/-- The region codes present in the offset table, in insertion order. -/
def regionCodes : List String := offsetEntries.map Prod.fst

/-- A ChessScape tas file for January 2020 (the naming scheme written by
download_chess). -/
def c4_file1 : String :=
  "chess-scape_rcp45_bias-corrected_01_tas_uk_1km_daily_20200101-20200130.nc"

/-- A ChessScape tas file for February 2020. -/
def c4_file2 : String :=
  "chess-scape_rcp45_bias-corrected_01_tas_uk_1km_daily_20200201-20200230.nc"

/-- An archive directory listing both candidate tas files. -/
def c4_listing : List String := [c4_file1, c4_file2]

/-- A filesystem on which the January file is absent and the February file is
present (one spatial cell inside tile NT27). -/
def c4_fs : String → Option (String → DA) := fun f =>
  if f = "p\\" ++ c4_file2 then some fun _ => [⟨2, [(325000, 675000, 10)]⟩]
  else none

/-- February 2020 tas file, listed first in the C8 directory. -/
def c8_fileFeb : String :=
  "chess-scape_rcp45_bias-corrected_01_tas_uk_1km_daily_20200201-20200230.nc"

/-- January 2020 tas file, listed second in the C8 directory. -/
def c8_fileJan : String :=
  "chess-scape_rcp45_bias-corrected_01_tas_uk_1km_daily_20200101-20200130.nc"

/-- A directory listing whose filesystem order is not chronological. -/
def c8_listing : List String := [c8_fileFeb, c8_fileJan]

/-- One spatial cell inside tile NT27. -/
def c8_cells : List (Nat × Nat × Int) := [(325000, 675000, 3)]

/-- A filesystem on which both files are present, carrying time coordinates
2 (February) and 1 (January). -/
def c8_fs : String → Option (String → DA) := fun f =>
  if f = "p\\" ++ c8_fileFeb then some fun _ => [⟨2, c8_cells⟩]
  else if f = "p\\" ++ c8_fileJan then some fun _ => [⟨1, c8_cells⟩]
  else none

/-- The bounding box of tile NT27. -/
def c8_bbox : Bbox := ⟨320000, 330000, 670000, 680000⟩

/-- The series rechunk_chess assembles for tas from the C8 listing:
February before January. -/
def c8_da : DA := [⟨2, c8_cells⟩, ⟨1, c8_cells⟩]

/-- A matching tas file for the C3 witness directory. -/
def c3w_matching : String :=
  "chess-scape_rcp45_bias-corrected_01_tas_uk_1km_daily_20200101-20200130.nc"

/-- A near-miss file (wrong variable) for the C3 witness directory. -/
def c3w_wrongVar : String :=
  "chess-scape_rcp45_bias-corrected_01_pr_uk_1km_daily_20200101-20200130.nc"

/-- The C3 witness directory listing. -/
def c3w_listing : List String := [c3w_matching, c3w_wrongVar]

/-- A filesystem with two sorted-order files for the C8 witness. -/
def c8w_fs : String → Option (String → DA) := fun f =>
  if f = "f1" then some fun _ => [⟨1, c8_cells⟩]
  else if f = "f2" then some fun _ => [⟨2, c8_cells⟩]
  else none

/-- A tas file present in the C9 witness run. -/
def c9_file : String :=
  "chess-scape_rcp45_bias-corrected_01_tas_uk_1km_daily_20200101-20200130.nc"

/-- The C9 witness directory listing. -/
def c9_listing : List String := [c9_file]

/-- The C9 witness filesystem: the single candidate file is present. -/
def c9_fs : String → Option (String → DA) := fun f =>
  if f = "p\\" ++ c9_file then some fun _ => [⟨1, [(325000, 675000, 10)]⟩]
  else none

/-- The C9 witness rechunk run. -/
def c9_run : Except PyExn (List (String × DA)) :=
  rechunk_chess c9_fs c9_listing "NT27" "rcp45" "01" "p"

/-- The dataset produced by the C9 witness run. -/
def c9_chunk : List (String × DA) :=
  match c9_run with
  | .ok c => c
  | .error _ => []

/-- A matching tas file for the C10 witness directory. -/
def c10_file : String :=
  "chess-scape_rcp45_bias-corrected_01_tas_uk_1km_daily_20200101-20200130.nc"

/-- The C10 witness directory listing: one matching file, one with the wrong
variable. -/
def c10_listing : List String :=
  [c10_file, "chess-scape_rcp45_bias-corrected_01_pr_uk_1km_daily_20200101-20200130.nc"]

deriving instance DecidableEq for Except

/-- C1: the three fixed examples of the spec: osgrid2bbox('NT2755072950',
'10km') = {320000, 330000, 670000, 680000}, osgrid2bbox('HU431392', '10km')
= {440000, 450000, 1130000, 1140000}, and osgrid2bbox('TV374354', '10km')
= {530000, 540000, 70000, 80000}, pinning down the bottom-to-top row
reversal of the 13x7 region table. -/
theorem c1_fixed_examples :
    osgrid2bbox (.str "NT2755072950") "10km" = .ok ⟨320000, 330000, 670000, 680000⟩ ∧
    osgrid2bbox (.str "HU431392") "10km" = .ok ⟨440000, 450000, 1130000, 1140000⟩ ∧
    osgrid2bbox (.str "TV374354") "10km" = .ok ⟨530000, 540000, 70000, 80000⟩ :=
  ⟨rfl, rfl, rfl⟩

/-- C2, the failing input of the code bug: a non-string gridref does not fail
with BNGError as the claim states.  The source calls gridref.upper() at line
204, before the try/except blocks whose except (TypeError, AttributeError)
clauses (commented "Non-string values will throw error") were meant to
convert the failure into BNGError; the AttributeError therefore escapes
uncaught, for both cell sizes. -/
theorem c2_nonstring_uncaught :
    osgrid2bbox .nonString "10km" = .error .attributeError ∧
    osgrid2bbox .nonString "100km" = .error .attributeError ∧
    PyExn.attributeError ≠ PyExn.bngError :=
  ⟨rfl, rfl, by decide⟩

/-- C4, the failing input of the code bug: a rechunk run in which the first
candidate file of the first variable (tas, January) is absent while the
second (February) is present raises UnboundLocalError instead of skipping
the missing file: the concat branch (line 78) reads cell_data, which was
never assigned because the `file is file_list[0]` branch was skipped.  The
claim (and the spec's skip-and-continue policy) says such a run does not
raise. -/
theorem c4_first_file_missing_raises :
    rechunk_chess c4_fs c4_listing "NT27" "rcp45" "01" "p" =
      .error .unboundLocalError := rfl

/-- C6: for every region code in the offset table, osgrid2bbox(code, '100km')
returns the 100000 x 100000 box anchored at that region's table-derived
offset (so xmax - xmin = ymax - ymin = 100000 and (xmin, ymin) is the
offset). -/
theorem c6_100km_boxes :
    ∀ p ∈ offsetEntries,
      osgrid2bbox (.str p.1) "100km" =
        .ok ⟨p.2.1, p.2.1 + 100000, p.2.2, p.2.2 + 100000⟩ := by decide

/-- Witness for C6 at the concrete table entry ('SV', (0, 0)). -/
theorem c6_100km_boxes_witness :
    osgrid2bbox (.str "SV") "100km" = .ok ⟨0, 100000, 0, 100000⟩ :=
  c6_100km_boxes ("SV", 0, 0) (by decide)

set_option maxRecDepth 40000 in
/-- C5, counterexample: the orchestrator does not enumerate every region code
of the British National Grid region table.  'JL' is in the table, but it is
not in the os_regions list of __main__, and no tile 'JL00' is enumerated. -/
theorem c5_counterexample :
    "JL" ∈ regionCodes ∧ "JL" ∉ os_regions ∧ "JL00" ∉ os_grid :=
  ⟨by decide, by decide, by decide⟩

/-- C8, counterexample: with a directory whose filesystem listing order is
February before January, filter_files returns the files in that order, and
the assembled tas series has time axis [2, 1]: not monotonically ordered.
(The spec itself notes in its design notes that the code relies on
incidental listing order.) -/
theorem c8_counterexample :
    filter_files "rcp45" (.list rcYears) (.single "tas") (.single "01") "p"
        c8_listing = .ok ["p\\" ++ c8_fileFeb, "p\\" ++ c8_fileJan] ∧
    fileLoop c8_fs "tas" c8_bbox ["p\\" ++ c8_fileFeb, "p\\" ++ c8_fileJan]
        0 none = .ok (some c8_da) ∧
    c8_da.map Slice.time = [2, 1] ∧
    timesSorted c8_da = false :=
  ⟨rfl, rfl, rfl, rfl⟩

/-- Unfolding equation of osgrid2bbox for a string argument and the '10km'
cell size. -/
theorem osgrid2bbox_10km_eq (s : String) :
    osgrid2bbox (.str s) "10km" =
      match match10km (pyUpper s.data) with
      | none => .error .bngError
      | some (region, coords) =>
        match offsetMap (String.mk region) with
        | none => .error .bngError
        | some xy => .ok (bbox10 xy.1 xy.2 coords) := rfl

/-- bbox10 depends on the numeric suffix only through its first two digits. -/
theorem bbox10_take2_eq (x y : Nat) {c₂ c₁ : List Char} (h : c₂.take 2 = c₁.take 2) :
    bbox10 x y c₂ = bbox10 x y c₁ := by
  unfold bbox10
  rw [h]

/-- C7: every valid 10 km reference (pattern match succeeded and the region
is mapped) yields a box of exactly 10000 x 10000 meters, and two valid
references with the same region code and the same first 2 digits of the
numeric suffix yield identical boxes: digits beyond the first 2 are
discarded. -/
theorem c7_10km_box_and_precision (s₁ s₂ : String) (r₁ c₁ r₂ c₂ : List Char)
    (xy : Nat × Nat)
    (h₁ : match10km (pyUpper s₁.data) = some (r₁, c₁))
    (h₂ : match10km (pyUpper s₂.data) = some (r₂, c₂))
    (hm : offsetMap (String.mk r₁) = some xy)
    (hr : r₂ = r₁) (hc : c₂.take 2 = c₁.take 2) :
    (osgrid2bbox (.str s₁) "10km" = .ok (bbox10 xy.1 xy.2 c₁) ∧
      (bbox10 xy.1 xy.2 c₁).xmax - (bbox10 xy.1 xy.2 c₁).xmin = 10000 ∧
      (bbox10 xy.1 xy.2 c₁).ymax - (bbox10 xy.1 xy.2 c₁).ymin = 10000) ∧
    osgrid2bbox (.str s₂) "10km" = osgrid2bbox (.str s₁) "10km" := by
  have e₁ : osgrid2bbox (.str s₁) "10km" = .ok (bbox10 xy.1 xy.2 c₁) := by
    simp only [osgrid2bbox_10km_eq, h₁, hm]
  have e₂ : osgrid2bbox (.str s₂) "10km" = .ok (bbox10 xy.1 xy.2 c₂) := by
    simp only [osgrid2bbox_10km_eq, h₂, hr, hm]
  refine ⟨⟨e₁, ?_, ?_⟩, ?_⟩
  · simp only [bbox10]
    omega
  · simp only [bbox10]
    omega
  · rw [e₁, e₂, bbox10_take2_eq xy.1 xy.2 hc]

/-- Witness for C7: the 10-figure reference NT2755072950 and the lowercase
2-figure reference nt27 resolve to the same 10 km box. -/
theorem c7_10km_box_and_precision_witness :
    (osgrid2bbox (.str "NT2755072950") "10km" =
        .ok (bbox10 300000 600000 "2755072950".data) ∧
      (bbox10 300000 600000 "2755072950".data).xmax -
        (bbox10 300000 600000 "2755072950".data).xmin = 10000 ∧
      (bbox10 300000 600000 "2755072950".data).ymax -
        (bbox10 300000 600000 "2755072950".data).ymin = 10000) ∧
    osgrid2bbox (.str "nt27") "10km" = osgrid2bbox (.str "NT2755072950") "10km" :=
  c7_10km_box_and_precision "NT2755072950" "nt27" "NT".data "2755072950".data
    "NT".data "27".data (300000, 600000) rfl rfl rfl rfl rfl

/-- Positions before an in-range position of a list are in range. -/
theorem get?_isSome_of_le {α : Type _} :
    ∀ (l : List α) (m n : Nat), m ≤ n → (l.get? n).isSome → (l.get? m).isSome := by
  intro l
  induction l with
  | nil => intro m n _ h; simp [List.get?] at h
  | cons x xs ih =>
    intro m n hmn h
    cases n with
    | zero =>
      have hm : m = 0 := Nat.le_zero.mp hmn
      subst hm; simp [List.get?]
    | succ k =>
      cases m with
      | zero => simp [List.get?]
      | succ j =>
        simp only [List.get?] at h ⊢
        exact ih j k (Nat.succ_le_succ_iff.mp hmn) h

/-- getD agrees with a successful get?. -/
theorem getD_of_get?_eq_some {α : Type _} {l : List α} {n : Nat} {a d : α}
    (h : l.get? n = some a) : l.getD n d = a := by
  have hn : n < l.length := by
    by_contra hc
    rw [List.get?_eq_none.mpr (Nat.le_of_not_lt hc)] at h
    exact Option.noConfusion h
  rw [List.getD_eq_getElem l d hn]
  rw [List.get?_eq_getElem? l n, List.getElem?_eq_getElem hn] at h
  exact (Option.some.injEq _ _).mp h

/-- On a well-formed token list the loop body of filter_files does not raise
and computes the pure condition. -/
theorem fileCond_wf (rcp : String) (y : Nat) (v e : String)
    (t : List (List Char)) (h : wfTokens t = true) :
    fileCond rcp y v e t = .ok (condBool rcp y v e t) := by
  cases h10 : t.get? 10 with
  | none =>
    rw [wfTokens, h10] at h
    exact absurd h (by simp)
  | some t10 =>
    rw [wfTokens, h10] at h
    have h' : (pyInt? (t10.take 4)).isSome = true := h
    obtain ⟨yr, hp⟩ := Option.isSome_iff_exists.mp h'
    have hs : (t.get? 10).isSome := by rw [h10]; rfl
    obtain ⟨t5, h5⟩ := Option.isSome_iff_exists.mp (get?_isSome_of_le t 5 10 (by omega) hs)
    obtain ⟨t2, h2⟩ := Option.isSome_iff_exists.mp (get?_isSome_of_le t 2 10 (by omega) hs)
    obtain ⟨t6, h6⟩ := Option.isSome_iff_exists.mp (get?_isSome_of_le t 6 10 (by omega) hs)
    simp only [fileCond, condBool, h10, hp, h5, h2, h6,
      getD_of_get?_eq_some h5, getD_of_get?_eq_some h2,
      getD_of_get?_eq_some h6, getD_of_get?_eq_some h10, Option.getD_some]

/-- The innermost loop of filter_files ORs the condition into every flag. -/
theorem scanFiles_map (rcp : String) (y : Nat) (v e : String) :
    ∀ (df : List (List (List Char))) (P : List (List Char) → Bool),
      (∀ t ∈ df, wfTokens t = true) →
      scanFiles rcp y v e df (df.map P) =
        .ok (df.map fun t => P t || condBool rcp y v e t) := by
  intro df
  induction df with
  | nil => intro P _; rfl
  | cons t rest ih =>
    intro P h
    have ht := h t (List.mem_cons_self t rest)
    simp only [List.map_cons, scanFiles, fileCond_wf rcp y v e t ht,
      ih P fun u hu => h u (List.mem_cons_of_mem t hu)]

/-- The ensembles loop of filter_files ORs in the disjunction over the
requested ensembles. -/
theorem ensLoop_map (rcp : String) (y : Nat) (v : String) :
    ∀ (es : List String) (df : List (List (List Char))) (P : List (List Char) → Bool),
      (∀ t ∈ df, wfTokens t = true) →
      ensLoop rcp y v es df (df.map P) =
        .ok (df.map fun t => P t || es.any fun e => condBool rcp y v e t) := by
  intro es
  induction es with
  | nil =>
    intro df P _
    simp [ensLoop]
  | cons e es ih =>
    intro df P h
    simp only [ensLoop, scanFiles_map rcp y v e df P h,
      ih df (fun t => P t || condBool rcp y v e t) h]
    simp [Bool.or_assoc]

/-- The variables loop of filter_files ORs in the disjunction over the
requested variables and ensembles. -/
theorem varLoop_map (rcp : String) (y : Nat) :
    ∀ (vs es : List String) (df : List (List (List Char))) (P : List (List Char) → Bool),
      (∀ t ∈ df, wfTokens t = true) →
      varLoop rcp y vs es df (df.map P) =
        .ok (df.map fun t => P t || vs.any fun v => es.any fun e => condBool rcp y v e t) := by
  intro vs
  induction vs with
  | nil => intro es df P _; simp [varLoop]
  | cons v vs ih =>
    intro es df P h
    simp only [varLoop, ensLoop_map rcp y v es df P h,
      ih es df (fun t => P t || es.any fun e => condBool rcp y v e t) h]
    simp [Bool.or_assoc]

/-- The years loop of filter_files ORs in the disjunction over all requested
combinations. -/
theorem yearLoop_map (rcp : String) :
    ∀ (ys : List Nat) (vs es : List String) (df : List (List (List Char)))
      (P : List (List Char) → Bool),
      (∀ t ∈ df, wfTokens t = true) →
      yearLoop rcp ys vs es df (df.map P) =
        .ok (df.map fun t =>
          P t || ys.any fun y => vs.any fun v => es.any fun e => condBool rcp y v e t) := by
  intro ys
  induction ys with
  | nil => intro vs es df P _; simp [yearLoop]
  | cons y ys ih =>
    intro vs es df P h
    simp only [yearLoop, varLoop_map rcp y vs es df P h,
      ih vs es df (fun t => P t || vs.any fun v => es.any fun e => condBool rcp y v e t) h]
    simp [Bool.or_assoc]

/-- Selecting by flags computed pointwise from the listing is a filter of the
listing. -/
theorem zip_filter_map_eq (pre : String) :
    ∀ (l : List String) (q : String → Bool),
      (((l.zip (l.map q)).filter fun p => p.2).map fun p => pre ++ p.1) =
        ((l.filter q).map fun f => pre ++ f) := by
  intro l
  induction l with
  | nil => intro q; rfl
  | cons x xs ih =>
    intro q
    cases hq : q x <;>
      simp [List.zip_cons_cons, List.filter_cons, hq, ih q]

/-- C3 (amended): when every filename in the directory tokenizes to at least
11 tokens whose date-range token starts with 4 digits (as every ChessScape
filename does), filter_files returns exactly the path-prefixed files, in
listing order, whose tokens satisfy some requested (year, variable,
ensemble) combination: ensemble id a substring of token 5, scenario a
substring of token 2, variable equal to token 6, and the year the value of
the first 4 characters of token 10; every other file is excluded. -/
theorem c3_filter_files_exact (rcp : String) (years : OneOrList Nat)
    (cvars ens : OneOrList String) (path : String) (listing : List String)
    (hwf : ∀ f ∈ listing, wfTokens (splitOnDelims f.data) = true) :
    filter_files rcp years cvars ens path listing =
      .ok (((listing.filter fun f =>
              anyMatch rcp years.normalize cvars.normalize ens.normalize
                (splitOnDelims f.data)).map fun f => path ++ "\\" ++ f)) := by
  have hdf : ∀ t ∈ listing.map fun f => splitOnDelims f.data, wfTokens t = true := by
    intro t ht
    obtain ⟨f, hf, rfl⟩ := List.mem_map.mp ht
    exact hwf f hf
  simp only [filter_files]
  rw [yearLoop_map rcp years.normalize cvars.normalize ens.normalize
    (listing.map fun f => splitOnDelims f.data) (fun _ => false) hdf]
  simp only [Bool.false_or, List.map_map]
  rw [zip_filter_map_eq (path ++ "\\") listing]
  rfl

/-- C3, counterexample to the unrestricted claim: on a directory holding a
file whose name has fewer than 11 tokens, filter_files raises IndexError at
df[i][10] instead of returning the matching files (here: the empty list). -/
theorem c3_counterexample :
    filter_files "rcp45" (.single 2020) (.single "tas") (.single "01") "p"
      ["a.txt"] = .error .indexError := rfl

/-- Witness for C3 on a concrete two-file directory: the matching tas file is
returned (path-prefixed) and the wrong-variable file is excluded. -/
theorem c3_filter_files_exact_witness :
    filter_files "rcp45" (.single 2020) (.single "tas") (.single "01") "p"
        c3w_listing =
      .ok (((c3w_listing.filter fun f =>
              anyMatch "rcp45" (OneOrList.single 2020).normalize
                (OneOrList.single "tas").normalize
                (OneOrList.single "01").normalize
                (splitOnDelims f.data)).map fun f => "p" ++ "\\" ++ f)) :=
  c3_filter_files_exact "rcp45" (.single 2020) (.single "tas") (.single "01")
    "p" c3w_listing (by decide)

/-- Selecting by any boolean flag list yields a sublist of the listing. -/
theorem zip_filter_sublist {α : Type _} :
    ∀ (l : List α) (flags : List Bool),
      ((((l.zip flags).filter fun p => p.2).map fun p => p.1)).Sublist l := by
  intro l
  induction l with
  | nil => intro flags; simp
  | cons x xs ih =>
    intro flags
    cases flags with
    | nil => simp [List.zip_nil_right]
    | cons b bs =>
      cases b
      · simpa [List.zip_cons_cons, List.filter_cons] using (ih bs).cons x
      · simpa [List.zip_cons_cons, List.filter_cons] using (ih bs).cons₂ x

/-- C10: whatever filter_files returns is a sublist of the path-prefixed
directory listing: each listed file appears at most once, even when several
requested (year, variable, ensemble) combinations match it (the filter marks
a per-file boolean and emits one pass over the listing), and the relative
order of the listing is preserved. -/
theorem c10_once_and_order (rcp : String) (years : OneOrList Nat)
    (cvars ens : OneOrList String) (path : String) (listing : List String)
    (out : List String)
    (h : filter_files rcp years cvars ens path listing = .ok out) :
    out.Sublist (listing.map fun f => path ++ "\\" ++ f) := by
  simp only [filter_files] at h
  split at h
  · exact absurd h (by simp)
  · rename_i flags heq
    rw [Except.ok.injEq] at h
    subst h
    have hs := (zip_filter_sublist listing flags).map fun f => path ++ "\\" ++ f
    simpa [List.map_map, Function.comp] using hs

/-- Witness for C10: a request with two years and two ensemble spellings that
both match the same file still returns that file once, in listing order. -/
theorem c10_once_and_order_witness :
    (["p\\" ++ c10_file]).Sublist (c10_listing.map fun f => "p" ++ "\\" ++ f) :=
  c10_once_and_order "rcp45" (.list [2020, 2021]) (.single "tas")
    (.list ["01", "1"]) "p" c10_listing ["p\\" ++ c10_file] rfl

/-- Updating a present key rewrites its value (dict-update branch of
dictSet). -/
theorem lookup_map_set {β : Type _} (k : String) (v : β) :
    ∀ (d : List (String × β)), (d.any fun p => p.1 == k) = true →
      ((d.map fun p => bif p.1 == k then (k, v) else p).lookup k) = some v := by
  intro d
  induction d with
  | nil => intro h; simp at h
  | cons p rest ih =>
    intro h
    obtain ⟨pk, pv⟩ := p
    cases hp : ((pk, pv).1 == k) with
    | true => simp [List.lookup_cons, hp]
    | false =>
      have h' : (rest.any fun p => p.1 == k) = true := by
        simpa [List.any_cons, hp] using h
      have hk : (k == pk) = false := by
        simp only at hp
        rw [beq_eq_false_iff_ne] at hp ⊢
        exact fun e => hp e.symm
      simp [List.lookup_cons, hp, hk, ih h']

/-- Appending a fresh key makes it found (dict-insert branch of dictSet). -/
theorem lookup_append_single {β : Type _} (k : String) (v : β) :
    ∀ (d : List (String × β)), (d.any fun p => p.1 == k) = false →
      (d ++ [(k, v)]).lookup k = some v := by
  intro d
  induction d with
  | nil => intro _; simp [List.lookup_cons]
  | cons p rest ih =>
    intro h
    obtain ⟨pk, pv⟩ := p
    rw [List.any_cons, Bool.or_eq_false_iff] at h
    have hk : (k == pk) = false := by
      have h1 := h.1
      simp only at h1
      rw [beq_eq_false_iff_ne] at h1 ⊢
      exact fun e => h1 e.symm
    simp [List.lookup_cons, hk, ih h.2]

/-- dict assignment d[k] = v makes lookup of k yield v. -/
theorem lookup_dictSet_self {β : Type _} (d : List (String × β)) (k : String) (v : β) :
    (dictSet d k v).lookup k = some v := by
  unfold dictSet
  cases ha : (d.any fun p => p.1 == k) with
  | true => simpa [ha] using lookup_map_set k v d ha
  | false => simpa [ha] using lookup_append_single k v d ha

/-- Appending a binding for another key leaves a lookup unchanged. -/
theorem lookup_append_single_ne {β : Type _} (k k' : String) (v : β) (hne : k' ≠ k) :
    ∀ (d : List (String × β)), (d ++ [(k, v)]).lookup k' = d.lookup k' := by
  intro d
  induction d with
  | nil => simp [List.lookup_cons, beq_false_of_ne hne]
  | cons p rest ih =>
    obtain ⟨pk, pv⟩ := p
    cases hk : (k' == pk) <;> simp [List.lookup_cons, hk, ih]

/-- Updating the value of another key leaves a lookup unchanged. -/
theorem lookup_map_set_ne {β : Type _} (k k' : String) (v : β) (hne : k' ≠ k) :
    ∀ (d : List (String × β)),
      ((d.map fun p => bif p.1 == k then (k, v) else p).lookup k') = d.lookup k' := by
  intro d
  induction d with
  | nil => rfl
  | cons p rest ih =>
    obtain ⟨pk, pv⟩ := p
    cases hp : ((pk, pv).1 == k) with
    | true =>
      have hpk : pk = k := eq_of_beq hp
      simp [List.lookup_cons, hp, hpk, beq_false_of_ne hne, ih]
    | false =>
      cases hk : (k' == pk) <;> simp [List.lookup_cons, hp, hk, ih]

/-- dict assignment d[k] = v leaves lookups of other keys unchanged. -/
theorem lookup_dictSet_ne {β : Type _} (d : List (String × β)) (k k' : String) (v : β)
    (hne : k' ≠ k) : (dictSet d k v).lookup k' = d.lookup k' := by
  unfold dictSet
  cases ha : (d.any fun p => p.1 == k) with
  | true => simpa [ha] using lookup_map_set_ne k k' v hne d
  | false => simpa [ha] using lookup_append_single_ne k k' v hne d

/-- Every slice of an aligned sum addDA a b matches a slice of a and a slice
of b at the same time coordinate, and every cell value is the sum of the
operand values at the same (x, y). -/
theorem addDA_mem {a b : DA} {s : Slice} (hs : s ∈ addDA a b) :
    ∃ sa, sa ∈ a ∧ ∃ sb, sb ∈ b ∧ sa.time = s.time ∧ sb.time = s.time ∧
      ∀ c ∈ s.cells, ∃ va vb,
        (c.1, c.2.1, va) ∈ sa.cells ∧ (c.1, c.2.1, vb) ∈ sb.cells ∧
          c.2.2 = va + vb := by
  unfold addDA at hs
  obtain ⟨sa, hsa, hmk⟩ := List.mem_filterMap.mp hs
  cases hf : b.find? fun s2 => s2.time == sa.time with
  | none => rw [hf] at hmk; exact absurd hmk (by simp)
  | some sb =>
    rw [hf] at hmk
    have hmk' : some (⟨sa.time, alignAdd sa.cells sb.cells⟩ : Slice) = some s := hmk
    have hseq : (⟨sa.time, alignAdd sa.cells sb.cells⟩ : Slice) = s := by
      injection hmk'
    have hsb : sb ∈ b := List.mem_of_find?_eq_some hf
    have htime : sb.time = sa.time := by
      have := List.find?_some hf
      exact eq_of_beq this
    refine ⟨sa, hsa, sb, hsb, ?_, ?_, ?_⟩
    · rw [← hseq]
    · rw [← hseq, htime]
    · intro c hc
      rw [← hseq] at hc
      have hc' : c ∈ alignAdd sa.cells sb.cells := hc
      unfold alignAdd at hc'
      obtain ⟨ca, hca, hmk2⟩ := List.mem_filterMap.mp hc'
      obtain ⟨cax, cay, cav⟩ := ca
      cases hf2 : sb.cells.find? fun c2 => c2.1 == cax && c2.2.1 == cay with
      | none => rw [hf2] at hmk2; exact absurd hmk2 (by simp)
      | some cb =>
        rw [hf2] at hmk2
        obtain ⟨cbx, cby, cbv⟩ := cb
        have hmk2' : some ((cax, cay, cav + cbv) : Nat × Nat × Int) = some c := hmk2
        have hceq : ((cax, cay, cav + cbv) : Nat × Nat × Int) = c := by injection hmk2'
        have hcb : ((cbx, cby, cbv) : Nat × Nat × Int) ∈ sb.cells :=
          List.mem_of_find?_eq_some hf2
        have hpred := List.find?_some hf2
        rw [Bool.and_eq_true] at hpred
        have hx : cbx = cax := eq_of_beq hpred.1
        have hy : cby = cay := eq_of_beq hpred.2
        refine ⟨cav, cbv, ?_, ?_, ?_⟩
        · rw [← hceq]; exact hca
        · rw [← hceq]
          simpa [hx, hy] using hcb
        · rw [← hceq]

/-- C9: in every dataset a rechunk run persists, the longwave and shortwave
series are present, the derived 'rds' variable is exactly their aligned
elementwise sum, and consequently every cell of every time step of 'rds'
equals the sum of the 'rlds' and 'rsds' values at the same time and (x, y)
coordinate. -/
theorem c9_rds_elementwise_sum (fs : String → Option (String → DA))
    (listing : List String) (os_cell rcp ensemble nc_path : String)
    (chunk : List (String × DA))
    (h : rechunk_chess fs listing os_cell rcp ensemble nc_path = .ok chunk) :
    ∃ la lb, chunk.lookup "rlds" = some la ∧ chunk.lookup "rsds" = some lb ∧
      chunk.lookup "rds" = some (addDA la lb) ∧
      ∀ s ∈ addDA la lb, ∃ sa, sa ∈ la ∧ ∃ sb, sb ∈ lb ∧
        sa.time = s.time ∧ sb.time = s.time ∧
        ∀ c ∈ s.cells, ∃ va vb, (c.1, c.2.1, va) ∈ sa.cells ∧
          (c.1, c.2.1, vb) ∈ sb.cells ∧ c.2.2 = va + vb := by
  unfold rechunk_chess at h
  cases hbb : osgrid2bbox (.str os_cell) "10km" with
  | error e => rw [hbb] at h; exact absurd h (by simp)
  | ok bbox =>
    rw [hbb] at h
    dsimp only at h
    cases hvl : varsLoop fs
        (fun var => filter_files rcp (.list rcYears) (.single var)
          (.single ensemble) nc_path listing) bbox climateVars none [] with
    | error e => rw [hvl] at h; exact absurd h (by simp)
    | ok pr =>
      obtain ⟨cd, os_chunk⟩ := pr
      rw [hvl] at h
      dsimp only at h
      cases hla : os_chunk.lookup "rlds" with
      | none =>
        rw [hla] at h
        exact absurd h (by simp)
      | some la =>
        rw [hla] at h
        cases hlb : os_chunk.lookup "rsds" with
        | none =>
          rw [hlb] at h
          exact absurd h (by simp)
        | some lb =>
          rw [hlb] at h
          have h' : Except.ok (ε := PyExn) (dictSet os_chunk "rds" (addDA la lb)) =
              .ok chunk := h
          have hchunk : dictSet os_chunk "rds" (addDA la lb) = chunk := by
            injection h'
          subst hchunk
          refine ⟨la, lb, ?_, ?_, ?_, ?_⟩
          · rw [lookup_dictSet_ne _ _ _ _ (by decide)]
            exact hla
          · rw [lookup_dictSet_ne _ _ _ _ (by decide)]
            exact hlb
          · exact lookup_dictSet_self os_chunk "rds" (addDA la lb)
          · intro s hs
            exact addDA_mem hs

/-- Witness for C9 on a concrete successful run. -/
theorem c9_rds_elementwise_sum_witness :
    ∃ la lb, c9_chunk.lookup "rlds" = some la ∧ c9_chunk.lookup "rsds" = some lb ∧
      c9_chunk.lookup "rds" = some (addDA la lb) ∧
      ∀ s ∈ addDA la lb, ∃ sa, sa ∈ la ∧ ∃ sb, sb ∈ lb ∧
        sa.time = s.time ∧ sb.time = s.time ∧
        ∀ c ∈ s.cells, ∃ va vb, (c.1, c.2.1, va) ∈ sa.cells ∧
          (c.1, c.2.1, vb) ∈ sb.cells ∧ c.2.2 = va + vb :=
  c9_rds_elementwise_sum c9_fs c9_listing "NT27" "rcp45" "01" "p" c9_chunk rfl

/-- Once cell_data is assigned, the rest of the file loop appends exactly the
cropped slices of the present files, skipping missing ones. -/
theorem fileLoop_from_some (fs : String → Option (String → DA)) (var : String)
    (bbox : Bbox) :
    ∀ (rest : List String) (idx : Nat) (cd : DA), idx ≠ 0 →
      fileLoop fs var bbox rest idx (some cd) =
        .ok (some (cd ++ presentCrops fs var bbox rest)) := by
  intro rest
  induction rest with
  | nil => intro idx cd hidx; simp [fileLoop, presentCrops]
  | cons f rest ih =>
    intro idx cd hidx
    unfold fileLoop presentCrops
    cases hf : fs f with
    | none => exact ih (idx + 1) cd (by omega)
    | some content =>
      simp only [if_neg hidx]
      rw [ih (idx + 1) (cd ++ cropDA bbox (content var)) (by omega)]
      simp [List.append_assoc]

/-- C8 (amended): provided the first candidate file of the variable is
present, the assembled per-variable series is exactly the concatenation, in
file-filter (i.e. directory listing) order, of the cropped slices of the
present files: missing files leave gaps, nothing is repaired or zero-filled.
Whenever that listing order is chronological (the hypothesis hsorted), the
assembled time axis is monotonically ordered; the unrestricted claim fails
because the listing order need not be chronological (see the
counterexample). -/
theorem c8_assembled_series (fs : String → Option (String → DA)) (var : String)
    (bbox : Bbox) (f₀ : String) (rest : List String) (c₀ : String → DA)
    (h₀ : fs f₀ = some c₀)
    (hsorted : timesSorted (cropDA bbox (c₀ var) ++ presentCrops fs var bbox rest) = true) :
    fileLoop fs var bbox (f₀ :: rest) 0 none =
      .ok (some (cropDA bbox (c₀ var) ++ presentCrops fs var bbox rest)) ∧
    timesSorted (cropDA bbox (c₀ var) ++ presentCrops fs var bbox rest) = true ∧
    (cropDA bbox (c₀ var) ++ presentCrops fs var bbox rest).map Slice.time =
      (cropDA bbox (c₀ var)).map Slice.time ++
        (presentCrops fs var bbox rest).map Slice.time := by
  refine ⟨?_, hsorted, by simp⟩
  unfold fileLoop
  rw [h₀]
  simp only [if_pos rfl]
  exact fileLoop_from_some fs var bbox rest 1 (cropDA bbox (c₀ var)) (by omega)

/-- Witness for C8 on a concrete chronologically listed pair of files. -/
theorem c8_assembled_series_witness :
    fileLoop c8w_fs "tas" c8_bbox ("f1" :: ["f2"]) 0 none =
      .ok (some (cropDA c8_bbox ((fun _ => [⟨1, c8_cells⟩]) "tas") ++
        presentCrops c8w_fs "tas" c8_bbox ["f2"])) ∧
    timesSorted (cropDA c8_bbox ((fun _ => [⟨1, c8_cells⟩]) "tas") ++
      presentCrops c8w_fs "tas" c8_bbox ["f2"]) = true ∧
    (cropDA c8_bbox ((fun _ => [⟨1, c8_cells⟩]) "tas") ++
      presentCrops c8w_fs "tas" c8_bbox ["f2"]).map Slice.time =
      (cropDA c8_bbox ((fun _ => [⟨1, c8_cells⟩]) "tas")).map Slice.time ++
        (presentCrops c8w_fs "tas" c8_bbox ["f2"]).map Slice.time :=
  c8_assembled_series c8w_fs "tas" c8_bbox "f1" ["f2"]
    (fun _ => [⟨1, c8_cells⟩]) rfl rfl

/-- The character list behind f'{num:02}'. -/
theorem pad2_data (n : Nat) :
    (pad2 n).data = [Char.ofNat (48 + n / 10 % 10), Char.ofNat (48 + n % 10)] := rfl

/-- Decimal digit characters are distinct. -/
theorem charDigit_inj :
    ∀ a, a < 10 → ∀ b, b < 10 → Char.ofNat (48 + a) = Char.ofNat (48 + b) → a = b := by
  decide

/-- Zero-padded two-digit rendering is injective below 100. -/
theorem pad2_inj (m : Nat) (hm : m < 100) (n : Nat) (hn : n < 100)
    (h : pad2 m = pad2 n) : m = n := by
  have hd : (pad2 m).data = (pad2 n).data := by rw [h]
  rw [pad2_data, pad2_data] at hd
  rw [List.cons.injEq, List.cons.injEq] at hd
  have h1 := charDigit_inj (m / 10 % 10) (Nat.mod_lt _ (by omega)) (n / 10 % 10)
    (Nat.mod_lt _ (by omega)) hd.1
  have h2 := charDigit_inj (m % 10) (Nat.mod_lt _ (by omega)) (n % 10)
    (Nat.mod_lt _ (by omega)) hd.2.1
  omega

/-- Strings with equal character data are equal. -/
theorem string_data_inj {a b : String} (h : a.data = b.data) : a = b := by
  cases a
  cases b
  exact congrArg String.mk h

/-- String concatenation concatenates the character data. -/
theorem string_append_data (a b : String) : (a ++ b).data = a.data ++ b.data := rfl

/-- A tile code splits uniquely into its 2-letter region code and its
2-digit sub-index. -/
theorem append_pad2_inj {c₁ c₂ : String} {n₁ n₂ : Nat}
    (hl₁ : c₁.length = 2) (hl₂ : c₂.length = 2)
    (hn₁ : n₁ < 100) (hn₂ : n₂ < 100)
    (h : c₁ ++ pad2 n₁ = c₂ ++ pad2 n₂) : c₁ = c₂ ∧ n₁ = n₂ := by
  have hd : c₁.data ++ (pad2 n₁).data = c₂.data ++ (pad2 n₂).data := by
    rw [← string_append_data, ← string_append_data, h]
  have hlen : c₁.data.length = c₂.data.length := by
    have e₁ : c₁.data.length = c₁.length := rfl
    have e₂ : c₂.data.length = c₂.length := rfl
    rw [e₁, e₂, hl₁, hl₂]
  obtain ⟨he, hp⟩ := List.append_inj hd hlen
  exact ⟨string_data_inj he, pad2_inj n₁ hn₁ n₂ hn₂ (string_data_inj hp)⟩

/-- The enumerated tile codes are pairwise distinct. -/
theorem os_grid_nodup : os_grid.Nodup := by
  have hlen : ∀ c ∈ os_regions, c.length = 2 := by decide
  have hnd : os_regions.Nodup := by decide
  unfold os_grid
  rw [List.nodup_flatMap]
  constructor
  · intro c hc
    refine (List.nodup_range 100).map_on ?_
    intro m hm n hn hmn
    exact (append_pad2_inj (hlen c hc) (hlen c hc) (List.mem_range.mp hm)
      (List.mem_range.mp hn) hmn).2
  · refine hnd.imp_of_mem ?_
    intro a b ha hb hne t ht₁ ht₂
    obtain ⟨m, hm, rfl⟩ := List.mem_map.mp ht₁
    obtain ⟨n, hn, he⟩ := List.mem_map.mp ht₂
    exact hne (append_pad2_inj (hlen a ha) (hlen b hb) (List.mem_range.mp hm)
      (List.mem_range.mp hn) he.symm).1

/-- Summing a constant over a list multiplies by its length. -/
theorem sum_map_const {α : Type _} (c : Nat) :
    ∀ (l : List α), (l.map fun _ => c).sum = l.length * c := by
  intro l
  induction l with
  | nil => simp
  | cons x xs ih => simp [ih, Nat.succ_mul, Nat.add_comm]

/-- The orchestrator enumerates exactly 100 tiles per listed region code. -/
theorem os_grid_length : os_grid.length = os_regions.length * 100 := by
  unfold os_grid
  rw [List.length_flatMap]
  simp only [Function.comp_def, List.length_map, List.length_range]
  rw [sum_map_const]

/-- The dispatched requests carry exactly the enumerated tile codes. -/
theorem tileRequests_tiles : tileRequests.map TileRequest.tile = os_grid := by
  unfold tileRequests
  rw [List.map_map]
  simp only [Function.comp_def]
  simp

/-- C5 (amended): the orchestrator enumerates exactly the tile codes of its
fixed 59-element os_regions list (a proper subset of the 91-code region
table, see the counterexample) crossed with the sub-indices 00 through 99:
every enumerated tile splits that way, every such combination is enumerated,
the 5900 tile codes are pairwise distinct, one TileRequest per tile carries
the fixed scenario 'rcp45' and ensemble '01', and the worker pool has fixed
size 16. -/
theorem c5_tile_enumeration :
    (∀ t ∈ os_grid, ∃ c ∈ os_regions, ∃ n, n < 100 ∧ t = c ++ pad2 n) ∧
    (∀ c ∈ os_regions, ∀ n, n < 100 → c ++ pad2 n ∈ os_grid) ∧
    os_grid.Nodup ∧
    os_grid.length = os_regions.length * 100 ∧
    tileRequests.map TileRequest.tile = os_grid ∧
    (∀ r ∈ tileRequests, r.rcp = "rcp45" ∧ r.ensemble = "01") ∧
    poolProcesses = 16 ∧
    os_regions.length = 59 ∧
    (∀ c ∈ os_regions, c ∈ regionCodes) := by
  refine ⟨?_, ?_, os_grid_nodup, os_grid_length, tileRequests_tiles, ?_, rfl, rfl, by decide⟩
  · intro t ht
    obtain ⟨c, hc, hmem⟩ := List.mem_flatMap.mp ht
    obtain ⟨n, hn, rfl⟩ := List.mem_map.mp hmem
    exact ⟨c, hc, n, List.mem_range.mp hn, rfl⟩
  · intro c hc n hn
    exact List.mem_flatMap.mpr ⟨c, hc, List.mem_map.mpr ⟨n, List.mem_range.mpr hn, rfl⟩⟩
  · intro r hr
    obtain ⟨cell, _, rfl⟩ := List.mem_map.mp hr
    exact ⟨rfl, rfl⟩

/-- Witness for C5: the tile SV00 is enumerated. -/
theorem c5_tile_enumeration_witness : "SV" ++ pad2 0 ∈ os_grid :=
  c5_tile_enumeration.2.1 "SV" (by decide) 0 (by decide)
